import Mathlib

/-!
Shallow embedding of the budget tracker application (`src/app.py`).

The application keeps, per user and month, a session state made of:
* `income : Nat` — the monthly income (`st.number_input` with `min_value=0`);
* `budgets` — a mapping group name → category name → `{budget, spent}`
  (both entered through `st.number_input` with `min_value=0`, hence `Nat`);
* `loans` — a mapping loan source → amount (`min_value=0`);
* `lending` — a mapping person → amount (`min_value=0`).

Python dictionaries are modelled as association lists in insertion order.
The UI widget callbacks become explicit state-transforming operations; where
a callback conditionally calls `save_data()`, the operation returns a `Bool`
flag recording whether a persisted write happened.
-/

set_option autoImplicit false

namespace BudgetTracker

/-- One budget line: `{"budget": ..., "spent": ...}` in `app.py`. -/
structure Item where
  budget : Nat
  spent : Nat
deriving DecidableEq, Repr

/-- A group of categories: one Python dict `name -> {budget, spent}`. -/
abbrev Group := List (String × Item)

/-- The `st.session_state.budgets` mapping: group name → group. -/
abbrev Budgets := List (String × Group)

/-- The per-month session state of `app.py`: `income`, `budgets`, `loans`,
`lending` (lines 407–423). -/
structure AppState where
  income : Nat
  budgets : Budgets
  loans : List (String × Nat)
  lending : List (String × Nat)
deriving DecidableEq, Repr

/-- Source line 443–444: `sum(i["spent"] for g in st.session_state.budgets.values() for i in g.values())`. -/
def total_spent (st : AppState) : Nat :=
  (st.budgets.map (fun g => (g.2.map (fun i => i.2.spent)).sum)).sum

/-- Source line 446–447: `sum(i["budget"] for g in st.session_state.budgets.values() for i in g.values())`. -/
def total_budget (st : AppState) : Nat :=
  (st.budgets.map (fun g => (g.2.map (fun i => i.2.budget)).sum)).sum

/-- Source line 449–450: `sum(st.session_state.loans.values())`. -/
def loan_total (st : AppState) : Nat :=
  (st.loans.map (fun p => p.2)).sum

/-- Source line 452–453: `sum(st.session_state.lending.values())`. -/
def lending_total (st : AppState) : Nat :=
  (st.lending.map (fun p => p.2)).sum

/-- Source line 754: `remaining = SALARY - spent - loans` where `SALARY` is the
income, `spent = total_spent()` and `loans = loan_total()`.  Python integers are
signed, so the result lives in `Int`. -/
def remaining (st : AppState) : Int :=
  (st.income : Int) - (total_spent st : Int) - (loan_total st : Int)

/-- Source line 464: the `Remaining` entry of the exported Excel `Summary`
sheet, computed as `SALARY - total_spent() - loan_total()`. -/
def export_summary_remaining (st : AppState) : Int :=
  (st.income : Int) - (total_spent st : Int) - (loan_total st : Int)

/-- Source line 740: `net_position = lending_total() - loan_total()`. -/
def net_position (st : AppState) : Int :=
  (lending_total st : Int) - (loan_total st : Int)

/-- Source line 719–720: `(total_spent() / total_budgeted * 100) if total_budgeted > 0 else 0`.
Python float arithmetic is modelled exactly in `ℚ`. -/
def budget_utilization (st : AppState) : ℚ :=
  if total_budget st > 0 then (total_spent st : ℚ) / (total_budget st : ℚ) * 100 else 0

/-- Source line 721: `((SALARY - total_spent() - loan_total()) / SALARY * 100) if SALARY > 0 else 0`. -/
def savings_rate (st : AppState) : ℚ :=
  if st.income > 0 then
    ((st.income : ℚ) - (total_spent st : ℚ) - (loan_total st : ℚ)) / (st.income : ℚ) * 100
  else 0

/-- Source line 768: `progress = min((spent + loans) / SALARY, 1.0) if SALARY > 0 else 0`. -/
def progress (st : AppState) : ℚ :=
  if st.income > 0 then
    min (((total_spent st : ℚ) + (loan_total st : ℚ)) / (st.income : ℚ)) 1
  else 0

/-- Key lookup in a group, mirroring Python `name in dict` / `dict[name]`. -/
def lookupName (g : Group) (name : String) : Option Item :=
  (g.find? (fun p => p.1 == name)).map (fun p => p.2)

/-- Membership test `name in st.session_state.budgets[group]` (source line 657). -/
def containsName (g : Group) (name : String) : Bool :=
  g.any (fun p => p.1 == name)

/-- Lookup of a group by name in the budgets mapping. -/
def lookupGroup (bs : Budgets) (group : String) : Option Group :=
  (bs.find? (fun p => p.1 == group)).map (fun p => p.2)

/-- Lookup of a single budget line `st.session_state.budgets[group][name]`. -/
def lookupItem (st : AppState) (group name : String) : Option Item :=
  match lookupGroup st.budgets group with
  | some g => lookupName g name
  | none => none

/-- Pointwise update of the item named `name` inside a group. -/
def updateName (g : Group) (name : String) (f : Item → Item) : Group :=
  g.map (fun p => if p.1 == name then (p.1, f p.2) else p)

/-- Pointwise update of the group named `group` inside the budgets mapping. -/
def updateGroup (bs : Budgets) (group : String) (f : Group → Group) : Budgets :=
  bs.map (fun p => if p.1 == group then (p.1, f p.2) else p)

/-- Source lines 616–626, the `Spent` number-input callback:
`if new_spent != data["spent"]: data["spent"] = new_spent; save_data()`.
The returned `Bool` records whether `save_data()` ran. -/
def setSpentOp (st : AppState) (group name : String) (v : Nat) : AppState × Bool :=
  match lookupItem st group name with
  | some item =>
      if v ≠ item.spent then
        ({ st with budgets := (updateGroup st.budgets group (fun g => updateName g name (fun i => { i with spent := v }))) }, true)
      else (st, false)
  | none => (st, false)

/-- Source lines 628–639, the `Budget` number-input callback:
`if new_budget != data["budget"]: data["budget"] = new_budget; save_data()`. -/
def setBudgetOp (st : AppState) (group name : String) (v : Nat) : AppState × Bool :=
  match lookupItem st group name with
  | some item =>
      if v ≠ item.budget then
        ({ st with budgets := (updateGroup st.budgets group (fun g => updateName g name (fun i => { i with budget := v }))) }, true)
      else (st, false)
  | none => (st, false)

/-- Source lines 642–645, the delete button:
`del st.session_state.budgets[group][name]; save_data()`. -/
def deleteCategoryOp (st : AppState) (group name : String) : AppState :=
  { st with budgets := (updateGroup st.budgets group (fun g => g.filter (fun q => q.1 != name))) }

/-- Source lines 656–660, the `Add` form submit:
`if new_name and new_name not in st.session_state.budgets[group]:
   st.session_state.budgets[group][new_name] = {"budget": new_budget, "spent": 0}; save_data()`.
A new dict key is appended at the end (Python insertion order). -/
def addCategoryOp (st : AppState) (group name : String) (b : Nat) : AppState × Bool :=
  match lookupGroup st.budgets group with
  | some g =>
      if name ≠ "" ∧ ¬ containsName g name then
        ({ st with budgets := (updateGroup st.budgets group (fun g0 => g0 ++ [(name, ⟨b, 0⟩)])) }, true)
      else (st, false)
  | none => (st, false)

/-- Source line 597: `is_paid = data["spent"] == data["budget"]`. -/
def is_paid (i : Item) : Bool :=
  i.spent == i.budget

/-- Source lines 602–610, the paid checkbox callback on one item:
`if paid and not is_paid: data["spent"] = data["budget"]`
`elif not paid and is_paid: data["spent"] = 0`. -/
def paidToggle (i : Item) (paid : Bool) : Item :=
  if paid && !(is_paid i) then { i with spent := i.budget }
  else if !paid && is_paid i then { i with spent := 0 }
  else i

/-- The paid checkbox as a state operation with its `save_data()` flag
(source lines 602–610). -/
def setPaidOp (st : AppState) (group name : String) (paid : Bool) : AppState × Bool :=
  match lookupItem st group name with
  | some item =>
      if paid && !(is_paid item) then
        ({ st with budgets := (updateGroup st.budgets group (fun g => updateName g name (fun i => { i with spent := i.budget }))) }, true)
      else if !paid && is_paid item then
        ({ st with budgets := (updateGroup st.budgets group (fun g => updateName g name (fun i => { i with spent := 0 }))) }, true)
      else (st, false)
  | none => (st, false)

/-- Python dict assignment `d[k] = v` on a string→Nat dict: overwrite the
existing key in place, else append. -/
def upsertNat (l : List (String × Nat)) (k : String) (v : Nat) : List (String × Nat) :=
  if l.any (fun p => p.1 == k) then l.map (fun p => if p.1 == k then (p.1, v) else p)
  else l ++ [(k, v)]

/-- Source lines 709–713, the `Add Lending` button:
`if lname: st.session_state.lending[lname] = lamt; save_data()`. -/
def addLendingOp (st : AppState) (name : String) (amt : Nat) : AppState :=
  if name ≠ "" then { st with lending := upsertNat st.lending name amt } else st

/-- Source lines 698–701, the lending delete button:
`del st.session_state.lending[lname]; save_data()`. -/
def delLendingOp (st : AppState) (name : String) : AppState :=
  { st with lending := st.lending.filter (fun p => p.1 != name) }

/-- Source lines 685–689, the `Add Loan` button:
`if lname: st.session_state.loans[lname] = lamt; save_data()`. -/
def addLoanOp (st : AppState) (name : String) (amt : Nat) : AppState :=
  if name ≠ "" then { st with loans := upsertNat st.loans name amt } else st

/-- Source line 791: `variable_categories = ["Grocery", "Entertainment", "Travel"]`. -/
def variable_categories : List String :=
  ["Grocery", "Entertainment", "Travel"]

/-- All `(name, item)` pairs of all groups in iteration order — the domain of
the nested loop at source lines 794–798. -/
def allItems (st : AppState) : List (String × Item) :=
  (st.budgets.map (fun p => p.2)).flatten

/-- One step of the collection loop at source lines 794–798:
`if name in variable_categories: d[name] = f(data)`. -/
def varStep (f : Item → Nat) (acc : List (String × Nat)) (p : String × Item) :
    List (String × Nat) :=
  if p.1 ∈ variable_categories then upsertNat acc p.1 (f p.2) else acc

/-- The collection loop of source lines 794–798, specialised by the projection
stored per name. -/
def collectVar (f : Item → Nat) (st : AppState) : List (String × Nat) :=
  (allItems st).foldl (varStep f) []

/-- Source lines 792–797: `variable_budgets[name] = data["budget"]`. -/
def variable_budgets (st : AppState) : List (String × Nat) :=
  collectVar (fun i => i.budget) st

/-- Source lines 793–798: `variable_spent[name] = data["spent"]`. -/
def variable_spent (st : AppState) : List (String × Nat) :=
  collectVar (fun i => i.spent) st

/-- Source line 801: `weeks_remaining = 4`. -/
def weeks_remaining : Nat := 4

/-- Python `int()` applied to an (exactly representable) float: truncation
toward zero. -/
def pyInt (q : ℚ) : Int :=
  if 0 ≤ q then ⌊q⌋ else ⌈q⌉

/-- Source lines 807–808: `remaining = budget - spent;
weekly_allowance = remaining / weeks_remaining if weeks_remaining > 0 else 0`,
computed in Python float arithmetic (exact here, modelled in `ℚ`). -/
def weekly_allowance (budget spent : Nat) : ℚ :=
  if weeks_remaining > 0 then ((budget : ℚ) - (spent : ℚ)) / (weeks_remaining : ℚ) else 0

/-- Source line 816: the weekly guide displays `int(weekly_allowance)` per week. -/
def weekly_allowance_display (budget spent : Nat) : Int :=
  pyInt (weekly_allowance budget spent)

/-- Modelled from the spec (§4.3 step 7, policy A): per debt category,
`max(spentOnThatCategory, budgetedOnThatCategory)` summed.  In this code the
debt analog is the `loans` map; a loan entry carries only its budgeted amount
and no payment is ever recorded against it, so its spent figure is `0`. -/
def debtDeductionA (st : AppState) : Nat :=
  (st.loans.map (fun p => max 0 p.2)).sum

/-- Modelled from the spec (§4.3 step 7, policy B): the full budgeted
liability summed across all debt categories, ignoring actual spend. -/
def debtDeductionB (st : AppState) : Nat :=
  (st.loans.map (fun p => p.2)).sum

/-- The spending recorded in group `group` under category name `name`
(summed over every group entry called `group`, matching the update
behaviour on duplicate keys). -/
def spentUnder (st : AppState) (group name : String) : Nat :=
  (st.budgets.map (fun p =>
    if p.1 == group then ((p.2.filter (fun q => q.1 == name)).map (fun i => i.2.spent)).sum
    else 0)).sum

/-- The budget recorded in group `group` under category name `name`. -/
def budgetUnder (st : AppState) (group name : String) : Nat :=
  (st.budgets.map (fun p =>
    if p.1 == group then ((p.2.filter (fun q => q.1 == name)).map (fun i => i.2.budget)).sum
    else 0)).sum

/-- A state with every item's spent value reassigned arbitrarily (budget
fields untouched) — used to state that `total_budget` ignores spent values. -/
def reassignSpent (st : AppState) (σ : String → String → Item → Nat) : AppState :=
  { st with budgets := st.budgets.map (fun p =>
      (p.1, p.2.map (fun q => (q.1, { q.2 with spent := σ p.1 q.1 q.2 })))) }

/-- The restriction of a state to the items whose name is in
`variable_categories` — used to state that all other items contribute nothing
to the weekly guide. -/
def restrictVar (st : AppState) : AppState :=
  { st with budgets := st.budgets.map (fun p =>
      (p.1, p.2.filter (fun q => variable_categories.contains q.1))) }

/-- An empty state: income 0, one empty group, no loans, no lending. -/
def stNeedsEmpty : AppState :=
  ⟨0, [("Needs", [])], [], []⟩

/-- End-to-end scenario, step 1: add category `Needs/Rent` with budget 1000. -/
def stRent1 : AppState :=
  (addCategoryOp stNeedsEmpty "Needs" "Rent" 1000).1

/-- End-to-end scenario, step 2: record 1000 spent against `Rent`. -/
def stRent2 : AppState :=
  (setSpentOp stRent1 "Needs" "Rent" 1000).1

/-- End-to-end scenario, step 3: delete the `Rent` category. -/
def stRent3 : AppState :=
  deleteCategoryOp stRent2 "Needs" "Rent"

/-- A concrete one-item state used by witnesses. -/
def stRentOnly : AppState :=
  ⟨0, [("Needs", [("Rent", ⟨1000, 200⟩)])], [], []⟩

/-- A concrete state with one variable-set item and one item outside it. -/
def stVarMix : AppState :=
  ⟨0, [("Variable Expenses", [("Grocery", ⟨8000, 100⟩)]),
       ("Housing", [("Room Rent", ⟨21000, 0⟩)])], [], []⟩

/-- A fully empty state. -/
def stEmpty : AppState :=
  ⟨0, [], [], []⟩

/-! ### Helper lemmas -/

theorem sum_map_add {α : Type} (l : List α) (f g : α → Nat) :
    (l.map f).sum + (l.map g).sum = (l.map (fun x => f x + g x)).sum := by
  induction l with
  | nil => simp
  | cons a l ih => simp only [List.map_cons, List.sum_cons]; omega

theorem lending_only_changes_lending (st : AppState) (l : List (String × Nat)) :
    total_spent { st with lending := l } = total_spent st
  ∧ total_budget { st with lending := l } = total_budget st
  ∧ remaining { st with lending := l } = remaining st
  ∧ savings_rate { st with lending := l } = savings_rate st
  ∧ export_summary_remaining { st with lending := l } = export_summary_remaining st :=
  ⟨rfl, rfl, rfl, rfl, rfl⟩

theorem map_budget_updateName (g : Group) (name : String) (u : Item → Item)
    (hu : ∀ i, (u i).budget = i.budget) :
    (updateName g name u).map (fun i => i.2.budget) = g.map (fun i => i.2.budget) := by
  unfold updateName
  rw [List.map_map]
  apply List.map_congr_left
  intro p _
  by_cases hp : p.1 = name <;> simp [Function.comp, hp, hu]

theorem total_budget_updateGroup_updateName (st : AppState) (group name : String)
    (u : Item → Item) (hu : ∀ i, (u i).budget = i.budget) :
    total_budget { st with budgets :=
        (updateGroup st.budgets group (fun g => updateName g name u)) }
      = total_budget st := by
  unfold total_budget updateGroup
  rw [List.map_map]
  congr 1
  apply List.map_congr_left
  intro p _
  by_cases hp : p.1 = group
  · simp only [Function.comp, hp, beq_self_eq_true, if_true]
    exact congrArg List.sum (map_budget_updateName p.2 name u hu)
  · simp [Function.comp, hp]

theorem total_budget_reassignSpent (st : AppState) (σ : String → String → Item → Nat) :
    total_budget (reassignSpent st σ) = total_budget st := by
  unfold total_budget reassignSpent
  rw [List.map_map]
  congr 1
  apply List.map_congr_left
  intro p _
  simp only [Function.comp_apply]
  rw [List.map_map]
  apply congrArg List.sum
  apply List.map_congr_left
  intro q _
  rfl

theorem sum_filter_split (f : Item → Nat) (g : Group) (name : String) :
    ((g.filter (fun q => q.1 != name)).map (fun i => f i.2)).sum
      + ((g.filter (fun q => q.1 == name)).map (fun i => f i.2)).sum
    = (g.map (fun i => f i.2)).sum := by
  induction g with
  | nil => simp
  | cons a l ih =>
    by_cases ha : a.1 = name
    · have h1 : (a.1 != name) = false := by simp [ha]
      have h2 : (a.1 == name) = true := by simp [ha]
      simp only [List.filter_cons, h1, h2, Bool.false_eq_true, if_false, if_true,
        List.map_cons, List.sum_cons]
      omega
    · have h1 : (a.1 != name) = true := by simp [ha]
      have h2 : (a.1 == name) = false := by simp [ha]
      simp only [List.filter_cons, h1, h2, Bool.false_eq_true, if_false, if_true,
        List.map_cons, List.sum_cons]
      omega

theorem sum_delete_split (f : Item → Nat) (bs : Budgets) (group name : String) :
    ((updateGroup bs group (fun g => g.filter (fun q => q.1 != name))).map
        (fun p => (p.2.map (fun i => f i.2)).sum)).sum
      + (bs.map (fun p =>
          if p.1 == group then ((p.2.filter (fun q => q.1 == name)).map (fun i => f i.2)).sum
          else 0)).sum
    = (bs.map (fun p => (p.2.map (fun i => f i.2)).sum)).sum := by
  unfold updateGroup
  rw [List.map_map, sum_map_add]
  apply congrArg List.sum
  apply List.map_congr_left
  intro p _
  by_cases hp : p.1 = group
  · simp only [Function.comp_apply, hp, beq_self_eq_true, if_true]
    exact sum_filter_split f p.2 name
  · simp [Function.comp_apply, hp]

theorem lookupGroup_updateGroup (bs : Budgets) (group : String) (F : Group → Group) :
    lookupGroup (updateGroup bs group F) group = (lookupGroup bs group).map F := by
  induction bs with
  | nil => rfl
  | cons p l ih =>
    by_cases hp : p.1 = group
    · simp [lookupGroup, updateGroup, List.find?_cons, hp]
    · have hb : (p.1 == group) = false := by simp [hp]
      simp only [lookupGroup, updateGroup, List.map_cons, List.find?_cons, hb,
        Bool.false_eq_true, if_false] at ih ⊢
      exact ih

theorem lookupName_filter_ne (g : Group) (name : String) :
    lookupName (g.filter (fun q => q.1 != name)) name = none := by
  unfold lookupName
  have h : (g.filter (fun q => q.1 != name)).find? (fun p => p.1 == name) = none := by
    rw [List.find?_eq_none]
    intro x hx
    have hm := (List.mem_filter.mp hx).2
    simp only [bne_iff_ne, ne_eq, decide_eq_true_eq] at hm
    simp [hm]
  rw [h]
  rfl

theorem lookupItem_deleteCategory (st : AppState) (group name : String) :
    lookupItem (deleteCategoryOp st group name) group name = none := by
  unfold lookupItem deleteCategoryOp
  rw [lookupGroup_updateGroup]
  cases lookupGroup st.budgets group with
  | none => rfl
  | some g => exact lookupName_filter_ne g name

theorem contains_eq_mem (l : List String) (x : String) :
    l.contains x = true ↔ x ∈ l := by
  simp [List.contains, List.elem_iff]

theorem keys_upsertNat (l : List (String × Nat)) (k : String) (v : Nat) :
    (upsertNat l k v).map (fun p => p.1) = l.map (fun p => p.1)
  ∨ (upsertNat l k v).map (fun p => p.1) = l.map (fun p => p.1) ++ [k] := by
  unfold upsertNat
  split
  · left
    rw [List.map_map]
    apply List.map_congr_left
    intro q _
    by_cases hq : q.1 = k <;> simp [hq]
  · right
    simp

theorem collect_keys_subset (f : Item → Nat) (l : List (String × Item))
    (acc : List (String × Nat))
    (hacc : ∀ x ∈ acc.map (fun p => p.1), x ∈ variable_categories) :
    ∀ x ∈ (l.foldl (varStep f) acc).map (fun p => p.1), x ∈ variable_categories := by
  induction l generalizing acc with
  | nil => exact hacc
  | cons a l ih =>
    rw [List.foldl_cons]
    apply ih
    unfold varStep
    by_cases ha : a.1 ∈ variable_categories
    · rw [if_pos ha]
      intro x hx
      rcases keys_upsertNat acc a.1 (f a.2) with h | h
      · rw [h] at hx
        exact hacc x hx
      · rw [h] at hx
        rcases List.mem_append.mp hx with h1 | h1
        · exact hacc x h1
        · have hxk : x = a.1 := by simpa using h1
          exact hxk ▸ ha
    · rw [if_neg ha]
      exact hacc

theorem foldl_varStep_filter (f : Item → Nat) (l : List (String × Item))
    (acc : List (String × Nat)) :
    (l.filter (fun q => variable_categories.contains q.1)).foldl (varStep f) acc
      = l.foldl (varStep f) acc := by
  induction l generalizing acc with
  | nil => rfl
  | cons a l ih =>
    by_cases ha : a.1 ∈ variable_categories
    · have hc : (variable_categories.contains a.1) = true := (contains_eq_mem _ _).mpr ha
      simp only [List.filter_cons, hc, if_true, List.foldl_cons]
      exact ih _
    · have hc : (variable_categories.contains a.1) = false :=
        Bool.eq_false_iff.mpr (fun h => ha ((contains_eq_mem _ _).mp h))
      simp only [List.filter_cons, hc, Bool.false_eq_true, if_false, List.foldl_cons]
      have hstep : varStep f acc a = acc := by
        unfold varStep
        rw [if_neg ha]
      rw [hstep]
      exact ih acc

theorem flatten_map_filter {α : Type} (p : α → Bool) (ls : List (List α)) :
    (ls.map (fun l => l.filter p)).flatten = ls.flatten.filter p := by
  induction ls with
  | nil => rfl
  | cons a ls ih =>
    simp only [List.map_cons, List.flatten_cons, List.filter_append, ih]

theorem allItems_restrictVar (st : AppState) :
    allItems (restrictVar st)
      = (allItems st).filter (fun q => variable_categories.contains q.1) := by
  unfold allItems restrictVar
  rw [← flatten_map_filter]
  simp only [List.map_map]
  rfl

/-! ### Claim theorems -/

/-- **C1**: for every state, the remaining figure equals earnings minus the
spent total minus the debt deduction, where the debt analog is the loans map.
Both policy A (per debt category `max(spent, budgeted)`, with no payments ever
recorded against a loan) and policy B (the full budgeted liability) give the
same deduction, namely `loan_total()`, so the code instantiates both policies
at once: `remaining = income - total_spent() - loan_total()`. -/
theorem remaining_matches_debt_policies (st : AppState) :
    remaining st = (st.income : Int) - (total_spent st : Int) - (debtDeductionA st : Int)
  ∧ remaining st = (st.income : Int) - (total_spent st : Int) - (debtDeductionB st : Int)
  ∧ debtDeductionA st = loan_total st
  ∧ debtDeductionB st = loan_total st := by
  have hA : debtDeductionA st = loan_total st := by
    unfold debtDeductionA loan_total
    simp
  have hB : debtDeductionB st = loan_total st := rfl
  refine ⟨?_, ?_, hA, hB⟩
  · unfold remaining; rw [hA]
  · unfold remaining; rw [hB]

/-- **C8**: every percentage computation is guarded against a zero
denominator and reports 0 instead of dividing: `budget_utilization` is 0 when
`total_budget() == 0`, `savings_rate` is 0 when income is 0, and the
allocation `progress` fraction is 0 when income is 0. -/
theorem division_guards_report_zero (st : AppState) :
    (total_budget st = 0 → budget_utilization st = 0)
  ∧ (st.income = 0 → savings_rate st = 0)
  ∧ (st.income = 0 → progress st = 0) := by
  refine ⟨fun h => ?_, fun h => ?_, fun h => ?_⟩ <;>
    simp [budget_utilization, savings_rate, progress, h]

/-- Witness for `division_guards_report_zero` at the empty state. -/
theorem division_guards_report_zero_witness :
    total_budget stEmpty = 0 ∧ budget_utilization stEmpty = 0
  ∧ savings_rate stEmpty = 0 ∧ progress stEmpty = 0 :=
  ⟨rfl, (division_guards_report_zero stEmpty).1 rfl,
    (division_guards_report_zero stEmpty).2.1 rfl,
    (division_guards_report_zero stEmpty).2.2 rfl⟩

/-- **C9**: the displayed paid state is exactly the predicate
`spent == budget`; checking the box sets `spent := budget` (making the
predicate true), unchecking sets `spent := 0` (making it false whenever
`budget > 0`), and no other spent value is producible through the toggle. -/
theorem paid_checkbox_spec :
    (∀ i : Item, is_paid i = true ↔ i.spent = i.budget)
  ∧ (∀ i : Item, (paidToggle i true).spent = i.budget ∧ is_paid (paidToggle i true) = true)
  ∧ (∀ i : Item, is_paid i = true → (paidToggle i false).spent = 0)
  ∧ (∀ i : Item, is_paid i = true → 0 < i.budget → is_paid (paidToggle i false) = false)
  ∧ (∀ (i : Item) (b : Bool),
      (paidToggle i b).spent = i.spent ∨ (paidToggle i b).spent = i.budget
        ∨ (paidToggle i b).spent = 0) := by
  refine ⟨fun i => ?_, fun i => ?_, fun i h => ?_, fun i h hb => ?_, fun i b => ?_⟩
  · simp [is_paid]
  · by_cases hs : i.spent = i.budget <;> simp [paidToggle, is_paid, hs]
  · simp [paidToggle, h]
  · have hs : i.spent = i.budget := by simpa [is_paid] using h
    simp [paidToggle, is_paid, hs]
    omega
  · unfold paidToggle
    split
    · exact Or.inr (Or.inl rfl)
    · split
      · exact Or.inr (Or.inr rfl)
      · exact Or.inl rfl

/-- Witness for `paid_checkbox_spec` at the item `{budget := 500, spent := 500}`. -/
theorem paid_checkbox_spec_witness :
    is_paid (⟨500, 500⟩ : Item) = true
  ∧ (paidToggle (⟨500, 500⟩ : Item) false).spent = 0
  ∧ is_paid (paidToggle (⟨500, 500⟩ : Item) false) = false :=
  ⟨rfl, paid_checkbox_spec.2.2.1 ⟨500, 500⟩ rfl,
    paid_checkbox_spec.2.2.2.1 ⟨500, 500⟩ rfl (by decide)⟩

/-- **C2**: `totalBudgeted` is the sum of the budgeted amounts of all
categories across all sections, independent of any spent amounts: reassigning
every spent value arbitrarily, changing one spent value through the Spent
input, or toggling the paid checkbox, all leave `total_budget()` unchanged. -/
theorem total_budget_ignores_spent (st : AppState) (group name : String) (v : Nat)
    (σ : String → String → Item → Nat) (b : Bool) :
    total_budget (reassignSpent st σ) = total_budget st
  ∧ total_budget ((setSpentOp st group name v).1) = total_budget st
  ∧ total_budget ((setPaidOp st group name b).1) = total_budget st := by
  refine ⟨total_budget_reassignSpent st σ, ?_, ?_⟩
  · unfold setSpentOp
    split
    · split
      · exact total_budget_updateGroup_updateName st group name _ (fun i => rfl)
      · rfl
    · rfl
  · unfold setPaidOp
    split
    · split
      · exact total_budget_updateGroup_updateName st group name _ (fun i => rfl)
      · split
        · exact total_budget_updateGroup_updateName st group name _ (fun i => rfl)
        · rfl
    · rfl

/-- **C3**: deleting a category discards (not merely hides) the spending
recorded under it: the category is gone from its section afterwards, and the
deleted items' spent and budget amounts are exactly what `total_spent()` and
`total_budget()` lose.  In particular the end-to-end scenario — earnings 0,
add `Needs/Rent` with budget 1000, record 1000 spent against it, delete it —
ends with `total_spent() == 0` and `total_budget() == 0`. -/
theorem deleteCategory_discards_contribution :
    (∀ (st : AppState) (group name : String),
        lookupItem (deleteCategoryOp st group name) group name = none)
  ∧ (∀ (st : AppState) (group name : String),
        total_spent (deleteCategoryOp st group name) + spentUnder st group name
          = total_spent st)
  ∧ (∀ (st : AppState) (group name : String),
        total_budget (deleteCategoryOp st group name) + budgetUnder st group name
          = total_budget st)
  ∧ (total_spent stRent2 = 1000 ∧ total_budget stRent2 = 1000
      ∧ total_spent stRent3 = 0 ∧ total_budget stRent3 = 0) := by
  refine ⟨lookupItem_deleteCategory, ?_, ?_, by decide, by decide, by decide, by decide⟩
  · intro st group name
    exact sum_delete_split (fun i => i.spent) st.budgets group name
  · intro st group name
    exact sum_delete_split (fun i => i.budget) st.budgets group name

/-- **C5**: the weekly spending guide's per-category budget/spent figures are
collected only for names in the discretionary set `variable_categories =
["Grocery", "Entertainment", "Travel"]`: every collected key lies in that set,
and restricting a state to the items named in the set leaves the collected
maps unchanged — items outside the set, in any group, contribute nothing. -/
theorem weekly_guide_variable_only :
    (∀ (st : AppState) (x : String),
        x ∈ (variable_budgets st).map (fun p => p.1) → x ∈ variable_categories)
  ∧ (∀ (st : AppState) (x : String),
        x ∈ (variable_spent st).map (fun p => p.1) → x ∈ variable_categories)
  ∧ (∀ st : AppState, variable_budgets (restrictVar st) = variable_budgets st)
  ∧ (∀ st : AppState, variable_spent (restrictVar st) = variable_spent st) := by
  refine ⟨?_, ?_, ?_, ?_⟩
  · intro st x hx
    exact collect_keys_subset _ _ [] (by simp) x hx
  · intro st x hx
    exact collect_keys_subset _ _ [] (by simp) x hx
  · intro st
    unfold variable_budgets collectVar
    rw [allItems_restrictVar]
    exact foldl_varStep_filter _ _ []
  · intro st
    unfold variable_spent collectVar
    rw [allItems_restrictVar]
    exact foldl_varStep_filter _ _ []

/-- Witness for `weekly_guide_variable_only` at a concrete mixed state. -/
theorem weekly_guide_variable_only_witness :
    "Grocery" ∈ variable_categories
  ∧ "Grocery" ∈ (variable_budgets stVarMix).map (fun p => p.1) :=
  ⟨weekly_guide_variable_only.1 stVarMix "Grocery" (by decide), by decide⟩

/-- **C4 counterexample**: with the category `Grocery` at budget 0 and spent
1000, the per-category remaining figure is `-1000 ≤ 0`, yet the weekly guide
displays `int(-1000 / 4) = -250`, a negative number instead of 0 — refuting
the claim that a non-positive remaining always reports 0. -/
theorem weekly_allowance_negative_counterexample :
    ((0 : ℚ) - (1000 : ℚ) ≤ 0)
  ∧ weekly_allowance_display 0 1000 = -250
  ∧ ¬ weekly_allowance_display 0 1000 = 0 := by
  have h4 : (weeks_remaining : ℚ) = 4 := by norm_num [weeks_remaining]
  have hq : weekly_allowance 0 1000 = -250 := by
    unfold weekly_allowance
    rw [if_pos (by norm_num [weeks_remaining])]
    rw [h4]
    norm_num
  have hcast : ((-250 : ℚ)) = ((-250 : ℤ) : ℚ) := by norm_num
  have hd : weekly_allowance_display 0 1000 = -250 := by
    unfold weekly_allowance_display
    rw [hq]
    unfold pyInt
    rw [if_neg (by norm_num)]
    rw [hcast, Int.ceil_intCast]
  refine ⟨by norm_num, hd, ?_⟩
  rw [hd]
  norm_num

/-- **C4 (amended)**: for every category the weekly guide's per-week figure
equals `remaining / weeks_remaining` truncated toward zero (with
`weeks_remaining` fixed at 4, so the `weeks_remaining > 0` guard always takes
the division branch); the figure is non-negative whenever `remaining ≥ 0` and
non-positive whenever `remaining ≤ 0`, but a negative remaining can display a
negative figure rather than 0. -/
theorem weekly_allowance_truncated_division (b s : Nat) :
    weekly_allowance_display b s = pyInt (((b : ℚ) - (s : ℚ)) / 4)
  ∧ ((s : ℚ) ≤ (b : ℚ) → 0 ≤ weekly_allowance_display b s)
  ∧ ((b : ℚ) ≤ (s : ℚ) → weekly_allowance_display b s ≤ 0) := by
  have h4 : (weeks_remaining : ℚ) = 4 := by norm_num [weeks_remaining]
  have hq : weekly_allowance b s = ((b : ℚ) - (s : ℚ)) / 4 := by
    unfold weekly_allowance
    rw [if_pos (by norm_num [weeks_remaining]), h4]
  refine ⟨by rw [weekly_allowance_display, hq], fun h => ?_, fun h => ?_⟩
  · rw [weekly_allowance_display, hq]
    have hnn : (0 : ℚ) ≤ ((b : ℚ) - (s : ℚ)) / 4 := by
      apply div_nonneg _ (by norm_num)
      linarith
    rw [pyInt, if_pos hnn]
    exact Int.floor_nonneg.mpr hnn
  · rw [weekly_allowance_display, hq]
    have hnp : ((b : ℚ) - (s : ℚ)) / 4 ≤ 0 := by
      apply div_nonpos_of_nonpos_of_nonneg _ (by norm_num)
      linarith
    rw [pyInt]
    by_cases h0 : (0 : ℚ) ≤ ((b : ℚ) - (s : ℚ)) / 4
    · rw [if_pos h0]
      have : ((b : ℚ) - (s : ℚ)) / 4 = 0 := le_antisymm hnp h0
      rw [this]
      simp
    · rw [if_neg h0]
      exact Int.ceil_le.mpr (by exact_mod_cast hnp)

/-- Witness for `weekly_allowance_truncated_division` at budget 100, spent 0. -/
theorem weekly_allowance_truncated_division_witness :
    ((0 : ℚ) ≤ (100 : ℚ))
  ∧ 0 ≤ weekly_allowance_display 100 0 :=
  ⟨by norm_num, (weekly_allowance_truncated_division 100 0).2.1 (by norm_num)⟩

/-- **C7 counterexample**: a whitespace-only name is NOT rejected: adding
category `" "` to the empty `Needs` section changes the state (the guard
`if new_name` only rules out the empty string, and no trimming happens). -/
theorem addCategory_whitespace_accepted_counterexample :
    (addCategoryOp stNeedsEmpty "Needs" " " 5).1 ≠ stNeedsEmpty
  ∧ (addCategoryOp stNeedsEmpty "Needs" " " 5).2 = true := by
  constructor
  · decide
  · decide

/-- **C7 (amended)**: `addCategory` rejects (leaves the state unchanged, with
no persisted write, for) a name equal to the empty string, and rejects a name
already present in that section (case-sensitive exact match) rather than
overwriting the existing category's budget; whitespace-only names are not
rejected. -/
theorem addCategory_rejects_empty_and_duplicate :
    (∀ (st : AppState) (group : String) (b : Nat),
        addCategoryOp st group "" b = (st, false))
  ∧ (∀ (st : AppState) (group name : String) (b : Nat) (g : Group),
        lookupGroup st.budgets group = some g → containsName g name = true →
        addCategoryOp st group name b = (st, false)) := by
  constructor
  · intro st group b
    unfold addCategoryOp
    cases lookupGroup st.budgets group with
    | none => rfl
    | some g => simp
  · intro st group name b g hg hc
    unfold addCategoryOp
    rw [hg]
    simp [hc]

/-- Witness for `addCategory_rejects_empty_and_duplicate` at a concrete
one-item state. -/
theorem addCategory_rejects_witness :
    lookupGroup stRentOnly.budgets "Needs" = some [("Rent", ⟨1000, 200⟩)]
  ∧ containsName [("Rent", ⟨1000, 200⟩)] "Rent" = true
  ∧ addCategoryOp stRentOnly "Needs" "Rent" 5 = (stRentOnly, false)
  ∧ addCategoryOp stRentOnly "Needs" "" 5 = (stRentOnly, false) :=
  ⟨by decide, by decide,
    addCategory_rejects_empty_and_duplicate.2 stRentOnly "Needs" "Rent" 5
      [("Rent", ⟨1000, 200⟩)] (by decide) (by decide),
    addCategory_rejects_empty_and_duplicate.1 stRentOnly "Needs" 5⟩

/-- **C6**: updating a category's budget to its current value, or its spent
value to its current value, is a no-op: the state is unchanged and no
persisted write (`save_data`) occurs. -/
theorem update_with_current_value_noop :
    (∀ (st : AppState) (group name : String) (i : Item),
        lookupItem st group name = some i → setBudgetOp st group name i.budget = (st, false))
  ∧ (∀ (st : AppState) (group name : String) (i : Item),
        lookupItem st group name = some i → setSpentOp st group name i.spent = (st, false)) := by
  constructor
  · intro st group name i h
    simp [setBudgetOp, h]
  · intro st group name i h
    simp [setSpentOp, h]

/-- Witness for `update_with_current_value_noop` at a one-item state. -/
theorem update_with_current_value_noop_witness :
    lookupItem stRentOnly "Needs" "Rent" = some ⟨1000, 200⟩
  ∧ setBudgetOp stRentOnly "Needs" "Rent" 1000 = (stRentOnly, false)
  ∧ setSpentOp stRentOnly "Needs" "Rent" 200 = (stRentOnly, false) :=
  ⟨by decide,
    update_with_current_value_noop.1 stRentOnly "Needs" "Rent" ⟨1000, 200⟩ (by decide),
    update_with_current_value_noop.2 stRentOnly "Needs" "Rent" ⟨1000, 200⟩ (by decide)⟩

/-- **C10**: adding or deleting a lending ("Money Lent") entry leaves
`total_spent`, `total_budget`, `remaining`, `savings_rate` and the exported
Summary remaining figure unchanged — lending only feeds the
`net_position = lending_total() - loan_total()` statistic. -/
theorem lending_frame_effect (st : AppState) (name : String) (amt : Nat) :
    (total_spent (addLendingOp st name amt) = total_spent st
     ∧ total_budget (addLendingOp st name amt) = total_budget st
     ∧ remaining (addLendingOp st name amt) = remaining st
     ∧ savings_rate (addLendingOp st name amt) = savings_rate st
     ∧ export_summary_remaining (addLendingOp st name amt) = export_summary_remaining st)
  ∧ (total_spent (delLendingOp st name) = total_spent st
     ∧ total_budget (delLendingOp st name) = total_budget st
     ∧ remaining (delLendingOp st name) = remaining st
     ∧ savings_rate (delLendingOp st name) = savings_rate st
     ∧ export_summary_remaining (delLendingOp st name) = export_summary_remaining st) := by
  constructor
  · unfold addLendingOp
    split
    · exact lending_only_changes_lending st _
    · exact ⟨rfl, rfl, rfl, rfl, rfl⟩
  · exact lending_only_changes_lending st _

end BudgetTracker
